import Mathlib

/-!
Verification of the FSI coupling layer of OpenIFEM against its specification.

The repository's `src/` tree holds two class headers
(`include/mpi_insimex.h`, `include/mpi_shared_hypo_elasticity.h`) and one
test driver (`tests/fsi_leaflet_mpi/fsi_leaflet_mpi.cpp`).  The headers are
embedded as declaration tables (method and field signatures transcribed
verbatim), the driver's control flow is embedded directly, and the bodies of
the operations that are declared but not present under `src/` are modelled
from the specification, each such definition carrying a
`Modelled from the spec:` doc comment.
-/

namespace OpenIFEM

/-! ## Declaration table of `Fluid::MPI::InsIMEX` (src/include/mpi_insimex.h) -/

/-- Member visibility in a C++ class declaration. -/
inductive Vis where
  | pub : Vis
  | priv : Vis
deriving DecidableEq, Repr

/-- A member-function signature as written in a class header: name,
visibility, parameter-type list, return type, and const qualification. -/
structure Method where
  mname : String
  vis : Vis
  params : List String
  ret : String
  isConst : Bool
deriving DecidableEq, Repr

/-- A data-member declaration: name and type. -/
structure Field where
  fname : String
  ftype : String
deriving DecidableEq, Repr

/-- The member functions of `Fluid::MPI::InsIMEX<dim>` exactly as declared in
`src/include/mpi_insimex.h` (lines 87-143): the constructor is omitted,
everything else is transcribed with its visibility, parameters and return
type. -/
def insIMEX_methods : List Method :=
  [ ⟨"run", Vis.pub, [], "void", false⟩,
    ⟨"get_current_solution", Vis.pub, [], "PETScWrappers::MPI::BlockVector", true⟩,
    ⟨"setup_dofs", Vis.priv, [], "void", false⟩,
    ⟨"make_constraints", Vis.priv, [], "void", false⟩,
    ⟨"setup_cell_property", Vis.priv, [], "void", false⟩,
    ⟨"initialize_system", Vis.priv, [], "void", false⟩,
    ⟨"assemble", Vis.priv, ["bool", "bool"], "void", false⟩,
    ⟨"solve", Vis.priv, ["bool", "bool"], "std::pair<unsigned int, double>", false⟩,
    ⟨"refine_mesh", Vis.priv, ["const unsigned int", "const unsigned int"], "void", false⟩,
    ⟨"output_results", Vis.priv, ["const unsigned int"], "void", true⟩,
    ⟨"run_one_step", Vis.priv, [], "void", false⟩ ]

/-- The data members of `Fluid::MPI::InsIMEX<dim>` relevant to the coupling
interface, as declared in `src/include/mpi_insimex.h` (lines 145-196). -/
def insIMEX_fields : List Field :=
  [ ⟨"present_solution", "PETScWrappers::MPI::BlockVector"⟩,
    ⟨"solution_increment", "PETScWrappers::MPI::BlockVector"⟩,
    ⟨"system_rhs", "PETScWrappers::MPI::BlockVector"⟩,
    ⟨"cell_property", "CellDataStorage<cell_iterator, CellProperty>"⟩ ]

/-- The members of the nested `CellProperty` struct, as declared in
`src/include/mpi_insimex.h` (lines 300-307). -/
def cellProperty_fields : List Field :=
  [ ⟨"indicator", "int"⟩,
    ⟨"fsi_acceleration", "Tensor<1, dim>"⟩,
    ⟨"fsi_stress", "SymmetricTensor<2, dim>"⟩ ]

/-- The class declares a public member function with the given name and
parameter-type list. -/
def exposesPub (ms : List Method) (n : String) (ps : List String) : Prop :=
  ∃ m ∈ ms, m.mname = n ∧ m.vis = Vis.pub ∧ m.params = ps

/-- The class declares a private member function with the given name and
parameter-type list. -/
def declaresPriv (ms : List Method) (n : String) (ps : List String) : Prop :=
  ∃ m ∈ ms, m.mname = n ∧ m.vis = Vis.priv ∧ m.params = ps

instance (ms : List Method) (n : String) (ps : List String) :
    Decidable (exposesPub ms n ps) := by
  unfold exposesPub; infer_instance

instance (ms : List Method) (n : String) (ps : List String) :
    Decidable (declaresPriv ms n ps) := by
  unfold declaresPriv; infer_instance

/-- The interface claimed by the spec for the fluid solver: public
`setup()`, public `run_one_step(bool)`, public `get_current_solution()`. -/
def specClaimedFluidInterface : Prop :=
  exposesPub insIMEX_methods "setup" [] ∧
  exposesPub insIMEX_methods "run_one_step" ["bool"] ∧
  exposesPub insIMEX_methods "get_current_solution" []

instance : Decidable specClaimedFluidInterface := by
  unfold specClaimedFluidInterface; infer_instance

/-! ## Cell properties and the indicator update (spec section 4.2)

The `CellProperty` struct is transcribed from `src/include/mpi_insimex.h`
lines 300-307 with `dim = 2`: an `int` indicator, a rank-1 tensor
(`fsi_acceleration`) and a symmetric rank-2 tensor (`fsi_stress`). -/

/-- A symmetric rank-2 tensor in two dimensions, mirroring
`dealii::SymmetricTensor<2, 2>`: it stores the entries `xx`, `xy`, `yy`
and is symmetric by construction. -/
structure Sym2 where
  xx : ℚ
  xy : ℚ
  yy : ℚ
deriving DecidableEq, Repr

/-- Per-cell cached coupling data, from the `CellProperty` struct of
`src/include/mpi_insimex.h`: the real/artificial-fluid indicator, the FSI
acceleration term and the FSI stress term. -/
structure CellProperty where
  indicator : Int
  fsi_acceleration : ℚ × ℚ
  fsi_stress : Sym2
deriving DecidableEq, Repr

/-- A point of the 2D domain with rational coordinates. -/
structure Pt where
  x : ℚ
  y : ℚ
deriving DecidableEq, Repr

/-- An axis-aligned rectangular cell, as produced by
`GridGenerator::subdivided_hyper_rectangle` in the drivers of this
repository. -/
structure Rect where
  lox : ℚ
  loy : ℚ
  hix : ℚ
  hiy : ℚ
deriving DecidableEq, Repr

/-- Closed-cell membership: the point lies within the rectangle or on its
boundary (all comparisons are inclusive, so a boundary point counts as
inside). -/
def pointInRect (p : Pt) (r : Rect) : Bool :=
  (r.lox ≤ p.x) && (p.x ≤ r.hix) && (r.loy ≤ p.y) && (p.y ≤ r.hiy)

/-- Point-in-solid test against the current solid geometry, given as the
list of cells of the solid triangulation. -/
def inSolid (solid : List Rect) (p : Pt) : Bool :=
  solid.any (fun r => pointInRect p r)

/-- The point lies on the boundary of one of the solid's cells (it is in
the closed cell and attains one of the four face coordinates). -/
def onSolidCellBoundary (solid : List Rect) (p : Pt) : Bool :=
  solid.any (fun r =>
    pointInRect p r &&
    (p.x == r.lox || p.x == r.hix || p.y == r.loy || p.y == r.hiy))

/-- A fluid cell as seen by the indicator update: the quadrature/test
points at which solid occupancy is tested, together with its cached
`CellProperty`. -/
structure FluidCell where
  testPoints : List Pt
  prop : CellProperty
deriving DecidableEq, Repr

/-- Modelled from the spec: the body of the `UpdateIndicator` transition is
not under `src/` (the header only declares the `CellProperty` cache).
Spec section 4.2: for every fluid cell, test whether its test points lie
inside the current solid geometry and set the indicator accordingly;
boundary points are classified as solid-covered (indicator = 1). -/
def computeIndicator (solid : List Rect) (c : FluidCell) : Int :=
  if c.testPoints.any (fun p => inSolid solid p) then 1 else 0

/-- Modelled from the spec: the `UpdateIndicator` transition applied to the
whole fluid mesh — each cell's indicator is recomputed from the solid
geometry alone, while its cached FSI force fields are left in place. -/
def updateIndicator (solid : List Rect) (cells : List FluidCell) :
    List FluidCell :=
  cells.map (fun c =>
    { c with prop := { c.prop with indicator := computeIndicator solid c } })

/-! ## Coupling-engine state for the time-step-independence claim -/

/-- Modelled from the spec: the state of the Interface Coupling Engine that
the indicator transition acts on — the simulation clock and step size
(spec section 3, "Time state"), the current solid geometry, and the fluid
cells with their cached properties. -/
structure EngineState where
  time : ℚ
  dt : ℚ
  solid : List Rect
  cells : List FluidCell
deriving DecidableEq, Repr

/-- Modelled from the spec: the `UpdateIndicator` transition of the engine,
recomputing every cell's indicator from the current solid geometry. -/
def updateIndicatorTransition (st : EngineState) : EngineState :=
  { st with cells := updateIndicator st.solid st.cells }

/-- Modelled from the spec: the clock advance — the simulation time is
advanced exactly once per global step, by the step size `dt` (spec
section 3, "Time state"). -/
def advanceTimeTransition (st : EngineState) : EngineState :=
  { st with time := st.time + st.dt }

/-- The indicator field of an engine state: the list of per-cell
indicators. -/
def indicatorField (st : EngineState) : List Int :=
  st.cells.map (fun c => c.prop.indicator)

/-! ## Shared particle synchronization (src/include/mpi_shared_hypo_elasticity.h,
spec section 4.5)

The header declares `construct_particles()`, `synchronize()`, the
`vertex_mapping` and the serialized displacement/velocity buffers; the
bodies are not under `src/` and are modelled from the spec. -/

/-- A material particle of the meshfree solid solver: position,
displacement and velocity state (spec section 3, "Solid Particle"); the
position and mass are assigned at construction and not touched by
synchronization. -/
structure SPParticle where
  pos : Pt
  mass : ℚ
  disp : ℚ × ℚ
  vel : ℚ × ℚ
deriving DecidableEq, Repr

/-- The replicated particle state of `SharedHypoElasticity` across MPI
ranks: the number of ranks, the owner rank of each vertex, and each rank's
replica of the particle at each vertex (spec section 3: each rank may hold
a replica; the owner's copy is authoritative). -/
structure ParticleState where
  nRanks : ℕ
  owner : ℕ → ℕ
  particles : ℕ → ℕ → SPParticle

/-- Modelled from the spec: the body of `synchronize()` is not under
`src/` (only its declaration and the serialized buffers are).  Spec
section 4.5: pack locally-owned particle displacement/velocity into flat
buffers keyed by the vertex mapping, exchange across ranks, and unpack so
that every rank holds the owning rank's displacement and velocity for
every vertex; position and mass are not part of the exchanged buffers. -/
def synchronize (s : ParticleState) : ParticleState :=
  { s with particles := fun r v =>
      let own := s.particles (s.owner v) v
      { s.particles r v with disp := own.disp, vel := own.vel } }

/-- Modelled from the spec: the body of `construct_particles()` is not
under `src/`.  Spec section 4.5: build one material particle per mesh
vertex, assigning it mass, initial position and material parameters from
the mesh; displacement and velocity start at zero.  Every rank holds the
same freshly built replica; the ownership map comes from the mesh
partitioning. -/
def construct_particles (nR : ℕ) (own : ℕ → ℕ) (vertexPos : ℕ → Pt)
    (vertexMass : ℕ → ℚ) : ParticleState :=
  { nRanks := nR,
    owner := own,
    particles := fun _ v => ⟨vertexPos v, vertexMass v, (0, 0), (0, 0)⟩ }

/-! ## Stress interpolation for the solid-to-fluid transfer (spec section 4.2)

`TransferSolidToFluid` evaluates the solid stress at a solid-covered fluid
quadrature point by shape-function interpolation in the enclosing solid
cell; its body is not under `src/` and the interpolation is modelled from
the spec with the standard bilinear shape functions of a quadrilateral
cell. -/

/-- A full (not a-priori symmetric) rank-2 tensor in two dimensions, used
to state symmetry of the interpolated stress. -/
structure Mat2 where
  a00 : ℚ
  a01 : ℚ
  a10 : ℚ
  a11 : ℚ
deriving DecidableEq, Repr

/-- View a symmetric tensor as a full rank-2 tensor. -/
def Sym2.toMat (s : Sym2) : Mat2 :=
  ⟨s.xx, s.xy, s.xy, s.yy⟩

/-- The nodal stress values of an enclosing solid quadrilateral cell: one
symmetric tensor per node, as held by the solid solver's `stress` field. -/
structure SolidCellStress where
  n0 : Sym2
  n1 : Sym2
  n2 : Sym2
  n3 : Sym2
deriving DecidableEq, Repr

/-- The four bilinear shape functions of the reference quadrilateral,
evaluated at local coordinates `(ξ, η)`. -/
def shapeWeights (ξ η : ℚ) : ℚ × ℚ × ℚ × ℚ :=
  ((1 - ξ) * (1 - η), ξ * (1 - η), (1 - ξ) * η, ξ * η)

/-- Modelled from the spec: the stress write of `TransferSolidToFluid` is
not under `src/` (the header only declares the `fsi_stress` cache).  Spec
section 4.2: locate the enclosing solid cell and evaluate the solid
stress there via shape-function interpolation — the weighted sum of the
nodal stress tensors with the bilinear shape functions at the point's
local coordinates. -/
def interpolateStress (sc : SolidCellStress) (ξ η : ℚ) : Mat2 :=
  let w := shapeWeights ξ η
  let m0 := sc.n0.toMat
  let m1 := sc.n1.toMat
  let m2 := sc.n2.toMat
  let m3 := sc.n3.toMat
  ⟨w.1 * m0.a00 + w.2.1 * m1.a00 + w.2.2.1 * m2.a00 + w.2.2.2 * m3.a00,
   w.1 * m0.a01 + w.2.1 * m1.a01 + w.2.2.1 * m2.a01 + w.2.2.2 * m3.a01,
   w.1 * m0.a10 + w.2.1 * m1.a10 + w.2.2.1 * m2.a10 + w.2.2.2 * m3.a10,
   w.1 * m0.a11 + w.2.1 * m1.a11 + w.2.2.1 * m2.a11 + w.2.2.2 * m3.a11⟩

/-- The smallest of the four nodal values of one stress component. -/
def nodalMin (a b c d : ℚ) : ℚ := min a (min b (min c d))

/-- The largest of the four nodal values of one stress component. -/
def nodalMax (a b c d : ℚ) : ℚ := max a (max b (max c d))

/-! ## One global coupling step and the solve diagnostics (spec sections 4.2-4.3)

`InsIMEX::solve` is declared in `src/include/mpi_insimex.h` (lines 126-134)
to return `std::pair<unsigned int, double>`; the staggered step that
consumes it is not under `src/` and is modelled from the spec. -/

/-- The state acted on by one global coupling step: the engine state (clock
and indicator field), the fluid solution vector, the solid nodal stress,
the accumulated fluid-to-solid force, and a log of the per-step linear
solve diagnostics. -/
structure StepState where
  engine : EngineState
  fluidSolution : List ℚ
  solidStress : List Sym2
  solidForce : List ℚ
  diagLog : List (ℕ × ℚ)

/-- Modelled from the spec: the staggered step driver is not under `src/`.
Spec section 4.2: each global step performs the five transitions exactly
once — `UpdateIndicator`, `TransferSolidToFluid`, `AdvanceFluid`,
`TransferFluidToSolid`, `AdvanceSolid` — with no sub-iteration.  The fluid
advance `advF` returns the new fluid solution together with the iteration
count and residual of its internal linear solve; that pair is appended to
the diagnostics log and takes no part in the step's control flow. -/
def couplingStep
    (advF : List ℚ → List ℚ × (ℕ × ℚ))
    (transferS2F : EngineState → List Sym2 → EngineState)
    (transferF2S : List ℚ → List ℚ)
    (advS : List ℚ → List Sym2 → List Sym2)
    (st : StepState) : StepState :=
  let st1 := updateIndicatorTransition st.engine
  let st2 := transferS2F st1 st.solidStress
  let fr := advF st.fluidSolution
  let force := transferF2S fr.1
  let newStress := advS force st.solidStress
  { engine := advanceTimeTransition st2,
    fluidSolution := fr.1,
    solidStress := newStress,
    solidForce := force,
    diagLog := st.diagLog ++ [fr.2] }

/-! ## The fluid solver state and `get_current_solution`
(src/include/mpi_insimex.h, lines 95-96 and 145-196) -/

/-- The state of `Fluid::MPI::InsIMEX` relevant to its accessors: the
solution vectors, the system matrices, the per-cell property cache and the
simulation time, following the data members declared in
`src/include/mpi_insimex.h`. -/
structure InsIMEXState where
  present_solution : List ℚ
  solution_increment : List ℚ
  system_rhs : List ℚ
  system_matrix : List (List ℚ)
  mass_matrix : List (List ℚ)
  mass_schur : List (List ℚ)
  cell_property : List CellProperty
  time : ℚ
deriving DecidableEq, Repr

/-- Modelled from the spec: the body of `get_current_solution` is not under
`src/`.  The header declares it as a `const` member returning a
`BlockVector` and documents it as "Return the solution for testing", with
`present_solution` documented as "The latest known solution"; the
operation returns `present_solution` and, in state-passing form, hands the
solver state back unchanged. -/
def get_current_solution (s : InsIMEXState) : List ℚ × InsIMEXState :=
  (s.present_solution, s)

/-! ## The test driver's entry point
(src/tests/fsi_leaflet_mpi/fsi_leaflet_mpi.cpp, lines 47-130) -/

/-- The outcome of the driver's try block: normal completion, a thrown
`std::exception` carrying its `what()` message, or a thrown value of any
other type. -/
inductive RunOutcome where
  | ok : RunOutcome
  | stdExc : String → RunOutcome
  | unknownExc : RunOutcome
deriving DecidableEq, Repr

/-- The message of the `ExcNotImplemented` assertion thrown by the driver
when the parameter file requests a dimension other than 2. -/
def excNotImplementedMsg : String := "ExcNotImplemented"

/-- The try-block body of `main`: with `dimension == 2` it builds the
triangulations, the solvers and the FSI object and runs the simulation
(whose outcome is `simRun`); any other dimension hits
`AssertThrow(false, ExcNotImplemented())`, a thrown `std::exception`.
Transcribed from `src/tests/fsi_leaflet_mpi/fsi_leaflet_mpi.cpp`
lines 61-102. -/
def mainBody (dimension : ℕ) (simRun : RunOutcome) : RunOutcome :=
  if dimension = 2 then simRun else RunOutcome.stdExc excNotImplementedMsg

/-- The banner line printed around each error report. -/
def bannerLine : String := "----------------------------------------------------"

/-- The line announcing a caught `std::exception`. -/
def stdExcHeader : String := "Exception on processing: "

/-- The line announcing a caught value of unknown type. -/
def unknownExcMsg : String := "Unknown exception!"

/-- The final line of both error reports. -/
def abortingMsg : String := "Aborting!"

/-- The catch clauses and return statements of `main`, transcribed from
`src/tests/fsi_leaflet_mpi/fsi_leaflet_mpi.cpp` lines 104-129: a caught
`std::exception` prints a banner, `Exception on processing:`, the
exception's `what()` and `Aborting!` to `cerr` and returns 1; any other
caught value prints `Unknown exception!` and returns 1; normal completion
returns 0.  The result is the exit status paired with the `cerr` lines. -/
def mainDriver : RunOutcome → ℕ × List String
  | RunOutcome.ok => (0, [])
  | RunOutcome.stdExc w =>
      (1, [bannerLine, stdExcHeader, w, abortingMsg, bannerLine])
  | RunOutcome.unknownExc =>
      (1, [bannerLine, unknownExcMsg, abortingMsg, bannerLine])

/-- The whole entry point: run the body under the try, dispatch the
outcome through the catch clauses. -/
def mainEntry (dimension : ℕ) (simRun : RunOutcome) : ℕ × List String :=
  mainDriver (mainBody dimension simRun)

/-! ## Theorems -/

/-- C2 counterexample: the interface claimed by the spec for
`Fluid::MPI::InsIMEX` does not match the header — the class declares no
member named `setup` at all, and `run_one_step` is a private member taking
no parameters, so no public `setup()` and no public `run_one_step(bool)`
exist. -/
theorem C2_interface_counterexample : ¬ specClaimedFluidInterface := by
  decide

/-- C2 (amended): the fluid solver's public interface consists of `run()`
and `get_current_solution()` and nothing else, and no member named
`setup` is declared at all; its one-step advance `run_one_step()` is
private and takes no flag, and the nonzero-constraints boolean is instead
the first parameter of the private `assemble(bool, bool)` and
`solve(bool, bool)`; the per-cell indicator and FSI force/stress fields
live in the `cell_property` member whose `CellProperty` records hold
`indicator`, `fsi_acceleration` and `fsi_stress` for use in assembly. -/
theorem C2_interface_amended :
    exposesPub insIMEX_methods "run" [] ∧
    exposesPub insIMEX_methods "get_current_solution" [] ∧
    (∀ m ∈ insIMEX_methods, m.vis = Vis.pub →
      m.mname = "run" ∨ m.mname = "get_current_solution") ∧
    (∀ m ∈ insIMEX_methods, m.mname ≠ "setup") ∧
    declaresPriv insIMEX_methods "run_one_step" [] ∧
    declaresPriv insIMEX_methods "assemble" ["bool", "bool"] ∧
    declaresPriv insIMEX_methods "solve" ["bool", "bool"] ∧
    (∃ f ∈ insIMEX_fields, f.fname = "cell_property") ∧
    (∃ f ∈ cellProperty_fields, f.fname = "indicator") ∧
    (∃ f ∈ cellProperty_fields, f.fname = "fsi_acceleration") ∧
    (∃ f ∈ cellProperty_fields, f.fname = "fsi_stress") := by
  decide

/-- C3: particle synchronization is idempotent — synchronizing twice in
succession with no intervening particle mutation leaves the particle state
after the second call identical to the state after the first. -/
theorem C3_synchronize_idempotent (s : ParticleState) :
    synchronize (synchronize s) = synchronize s := rfl

/-- C4: on a single-rank run (rank count 1, every vertex owned by rank 0,
so no cross-rank peers), `construct_particles()` followed by one
`synchronize()` leaves the particle state identical to its freshly
constructed state. -/
theorem C4_construct_synchronize_roundtrip (own : ℕ → ℕ) (vp : ℕ → Pt)
    (vm : ℕ → ℚ) (_hsingle : ∀ v, own v = 0) :
    synchronize (construct_particles 1 own vp vm) =
      construct_particles 1 own vp vm := rfl

/-- C4 witness: the round-trip theorem applied to a concrete single-rank
mesh of particles. -/
theorem C4_construct_synchronize_roundtrip_witness :
    synchronize (construct_particles 1 (fun _ => 0) (fun v => ⟨v, 0⟩)
        (fun _ => 1)) =
      construct_particles 1 (fun _ => 0) (fun v => ⟨v, 0⟩) (fun _ => 1) :=
  C4_construct_synchronize_roundtrip (fun _ => 0) (fun v => ⟨v, 0⟩)
    (fun _ => 1) (fun _ => rfl)

/-- C9: the indicator field computed by the `UpdateIndicator` transition
depends only on the solid geometry and the fluid cells — two runs from the
same geometry, one with step size `dt` and one with step size `dt / 2`
(and arbitrary clock values), produce identical indicator fields. -/
theorem C9_indicator_dt_independent (t₁ t₂ dt : ℚ) (solid : List Rect)
    (cells : List FluidCell) :
    indicatorField (updateIndicatorTransition ⟨t₁, dt, solid, cells⟩) =
      indicatorField (updateIndicatorTransition ⟨t₂, dt / 2, solid, cells⟩) :=
  rfl

/-- C10: `get_current_solution` is declared in the header as a public
`const` member with no parameters, and the modelled operation returns
`present_solution` while leaving every component of the solver state — the
solution vectors, the matrices, the cell-property cache and the time —
unchanged. -/
theorem C10_get_current_solution_pure (s : InsIMEXState) :
    (∃ m ∈ insIMEX_methods, m.mname = "get_current_solution" ∧
        m.vis = Vis.pub ∧ m.params = [] ∧ m.isConst = true) ∧
    (get_current_solution s).1 = s.present_solution ∧
    (get_current_solution s).2.present_solution = s.present_solution ∧
    (get_current_solution s).2.solution_increment = s.solution_increment ∧
    (get_current_solution s).2.system_rhs = s.system_rhs ∧
    (get_current_solution s).2.system_matrix = s.system_matrix ∧
    (get_current_solution s).2.mass_matrix = s.mass_matrix ∧
    (get_current_solution s).2.mass_schur = s.mass_schur ∧
    (get_current_solution s).2.cell_property = s.cell_property ∧
    (get_current_solution s).2.time = s.time :=
  ⟨by decide, rfl, rfl, rfl, rfl, rfl, rfl, rfl, rfl, rfl⟩

/-- A point on the boundary of a member cell of the solid is in the solid
(membership in a cell is inclusive of the boundary). -/
theorem boundary_mem_inSolid (solid : List Rect) (p : Pt)
    (h : onSolidCellBoundary solid p = true) : inSolid solid p = true := by
  rcases List.any_eq_true.mp h with ⟨r, hr, hcond⟩
  simp only [Bool.and_eq_true] at hcond
  exact List.any_eq_true.mpr ⟨r, hr, hcond.1⟩

/-- C1: after the `UpdateIndicator` transition, every fluid cell's
indicator equals `computeIndicator`, and for every fluid cell that value
is 0 or 1, it is 1 exactly when some test point of the cell lies within or
on the boundary of the current solid geometry, and a test point exactly on
a solid cell boundary deterministically forces indicator 1. -/
theorem C1_update_indicator (solid : List Rect) (cells : List FluidCell) :
    ((updateIndicator solid cells).map (fun c => c.prop.indicator) =
        cells.map (fun c => computeIndicator solid c)) ∧
    ∀ c ∈ cells,
      (computeIndicator solid c = 0 ∨ computeIndicator solid c = 1) ∧
      (computeIndicator solid c = 1 ↔
        ∃ p ∈ c.testPoints, inSolid solid p = true) ∧
      (∀ p ∈ c.testPoints, onSolidCellBoundary solid p = true →
        computeIndicator solid c = 1) := by
  constructor
  · simp only [updateIndicator, List.map_map]
    rfl
  · intro c _hc
    by_cases h : c.testPoints.any (fun p => inSolid solid p) = true
    · have h1 : computeIndicator solid c = 1 := by
        simp [computeIndicator, h]
      rcases List.any_eq_true.mp h with ⟨p, hp, hps⟩
      exact ⟨Or.inr h1, ⟨fun _ => ⟨p, hp, hps⟩, fun _ => h1⟩,
        fun _ _ _ => h1⟩
    · have h0 : computeIndicator solid c = 0 := by
        simp [computeIndicator] at h ⊢
        intro p hp
        exact h p hp
      refine ⟨Or.inl h0, ⟨?_, ?_⟩, ?_⟩
      · intro h1
        rw [h0] at h1
        exact absurd h1 (by decide)
      · intro hex
        rcases hex with ⟨p, hp, hps⟩
        exact absurd (List.any_eq_true.mpr ⟨p, hp, hps⟩) h
      · intro p hp hb
        exact absurd
          (List.any_eq_true.mpr ⟨p, hp, boundary_mem_inSolid solid p hb⟩) h

/-- Witness data: a one-cell solid occupying the square with corners
`(1, 0)` and `(2, 1)`. -/
def wSolid : List Rect := [⟨1, 0, 2, 1⟩]

/-- Witness data: a test point exactly on the left face of the solid
cell. -/
def wPt : Pt := ⟨1, 0⟩

/-- Witness data: a fluid cell whose single test point is `wPt`, with a
zeroed property record. -/
def wCell : FluidCell := ⟨[wPt], ⟨0, (0, 0), ⟨0, 0, 0⟩⟩⟩

/-- C1 witness: the indicator theorem applied to the concrete one-cell
solid and the fluid cell whose test point sits exactly on the solid
boundary — the indicator is deterministically 1. -/
theorem C1_update_indicator_witness :
    (computeIndicator wSolid wCell = 0 ∨ computeIndicator wSolid wCell = 1) ∧
    computeIndicator wSolid wCell = 1 :=
  ⟨((C1_update_indicator wSolid [wCell]).2 wCell (by decide)).1,
   ((C1_update_indicator wSolid [wCell]).2 wCell (by decide)).2.2 wPt
     (by decide) (by decide)⟩

/-- C6: the entry point returns exit status 0 on normal completion; a
caught `std::exception` is logged (its `what()` message appears in the
`cerr` lines) and the status is 1; an unknown exception is logged and the
status is 1; and a parameter dimension other than 2 trips the
`AssertThrow`, logging `ExcNotImplemented` and returning 1. -/
theorem C6_exit_status :
    (mainEntry 2 RunOutcome.ok).1 = 0 ∧
    (∀ w, (mainEntry 2 (RunOutcome.stdExc w)).1 = 1 ∧
        w ∈ (mainEntry 2 (RunOutcome.stdExc w)).2) ∧
    ((mainEntry 2 RunOutcome.unknownExc).1 = 1 ∧
        unknownExcMsg ∈ (mainEntry 2 RunOutcome.unknownExc).2) ∧
    (∀ d simRun, d ≠ 2 →
        (mainEntry d simRun).1 = 1 ∧
        excNotImplementedMsg ∈ (mainEntry d simRun).2) := by
  refine ⟨rfl, ?_, ⟨rfl, ?_⟩, ?_⟩
  · intro w
    exact ⟨rfl, by simp [mainEntry, mainBody, mainDriver]⟩
  · simp [mainEntry, mainBody, mainDriver]
  · intro d simRun hd
    refine ⟨?_, ?_⟩ <;>
      simp [mainEntry, mainBody, if_neg hd, mainDriver]

/-- C6 witness: the exit-status theorem applied at dimension 2 with normal
completion and at dimension 3, where the `ExcNotImplemented` assertion
fires. -/
theorem C6_exit_status_witness :
    (mainEntry 2 RunOutcome.ok).1 = 0 ∧
    (mainEntry 3 RunOutcome.ok).1 = 1 ∧
    excNotImplementedMsg ∈ (mainEntry 3 RunOutcome.ok).2 :=
  ⟨C6_exit_status.1,
   (C6_exit_status.2.2.2 3 RunOutcome.ok (by decide)).1,
   (C6_exit_status.2.2.2 3 RunOutcome.ok (by decide)).2⟩

/-- C7: `solve` is declared in the header to return the pair of the
iteration count and the residual of the internal linear solve, and in the
staggered step these diagnostics take no part in control: two fluid
advances that produce the same fluid solution but arbitrary diagnostics
yield identical engine, fluid, stress and force state after the coupling
step (the pair flows only into the diagnostics log). -/
theorem C7_solve_diagnostics_only
    (advF advG : List ℚ → List ℚ × (ℕ × ℚ))
    (tS2F : EngineState → List Sym2 → EngineState)
    (tF2S : List ℚ → List ℚ)
    (advS : List ℚ → List Sym2 → List Sym2)
    (st : StepState)
    (hagree : ∀ v, (advF v).1 = (advG v).1) :
    (∃ m ∈ insIMEX_methods, m.mname = "solve" ∧ m.params = ["bool", "bool"] ∧
        m.ret = "std::pair<unsigned int, double>") ∧
    (couplingStep advF tS2F tF2S advS st).engine =
      (couplingStep advG tS2F tF2S advS st).engine ∧
    (couplingStep advF tS2F tF2S advS st).fluidSolution =
      (couplingStep advG tS2F tF2S advS st).fluidSolution ∧
    (couplingStep advF tS2F tF2S advS st).solidStress =
      (couplingStep advG tS2F tF2S advS st).solidStress ∧
    (couplingStep advF tS2F tF2S advS st).solidForce =
      (couplingStep advG tS2F tF2S advS st).solidForce := by
  refine ⟨by decide, rfl, ?_, ?_, ?_⟩ <;>
    simp [couplingStep, hagree st.fluidSolution]

/-- Witness data: a fluid advance that keeps the solution and reports 3
iterations with residual 1. -/
def wAdvF : List ℚ → List ℚ × (ℕ × ℚ) := fun v => (v, (3, 1))

/-- Witness data: a fluid advance with the same solution but different
diagnostics (7 iterations, residual 2). -/
def wAdvG : List ℚ → List ℚ × (ℕ × ℚ) := fun v => (v, (7, 2))

/-- Witness data: an identity solid-to-fluid transfer. -/
def wTS2F : EngineState → List Sym2 → EngineState := fun e _ => e

/-- Witness data: an identity fluid-to-solid traction transfer. -/
def wTF2S : List ℚ → List ℚ := fun v => v

/-- Witness data: a solid advance that keeps its stress. -/
def wAdvS : List ℚ → List Sym2 → List Sym2 := fun _ s => s

/-- Witness data: a concrete coupling-step state. -/
def wStep : StepState := ⟨⟨0, 1, wSolid, [wCell]⟩, [0], [], [], []⟩

/-- C7 witness: the diagnostics-independence theorem applied to two
concrete fluid advances that agree on the solution and differ in the
reported iteration count and residual. -/
theorem C7_solve_diagnostics_only_witness :
    (∃ m ∈ insIMEX_methods, m.mname = "solve" ∧ m.params = ["bool", "bool"] ∧
        m.ret = "std::pair<unsigned int, double>") ∧
    (couplingStep wAdvF wTS2F wTF2S wAdvS wStep).engine =
      (couplingStep wAdvG wTS2F wTF2S wAdvS wStep).engine ∧
    (couplingStep wAdvF wTS2F wTF2S wAdvS wStep).fluidSolution =
      (couplingStep wAdvG wTS2F wTF2S wAdvS wStep).fluidSolution ∧
    (couplingStep wAdvF wTS2F wTF2S wAdvS wStep).solidStress =
      (couplingStep wAdvG wTS2F wTF2S wAdvS wStep).solidStress ∧
    (couplingStep wAdvF wTS2F wTF2S wAdvS wStep).solidForce =
      (couplingStep wAdvG wTS2F wTF2S wAdvS wStep).solidForce :=
  C7_solve_diagnostics_only wAdvF wAdvG wTS2F wTF2S wAdvS wStep
    (fun _ => rfl)

/-- A convex combination of four values is at most any common upper
bound of them. -/
theorem convex4_le (w0 w1 w2 w3 a0 a1 a2 a3 M : ℚ) (h0 : 0 ≤ w0)
    (h1 : 0 ≤ w1) (h2 : 0 ≤ w2) (h3 : 0 ≤ w3)
    (hsum : w0 + w1 + w2 + w3 = 1) (ha0 : a0 ≤ M) (ha1 : a1 ≤ M)
    (ha2 : a2 ≤ M) (ha3 : a3 ≤ M) :
    w0 * a0 + w1 * a1 + w2 * a2 + w3 * a3 ≤ M := by
  have e0 := mul_le_mul_of_nonneg_left ha0 h0
  have e1 := mul_le_mul_of_nonneg_left ha1 h1
  have e2 := mul_le_mul_of_nonneg_left ha2 h2
  have e3 := mul_le_mul_of_nonneg_left ha3 h3
  have hM : w0 * M + w1 * M + w2 * M + w3 * M = M := by
    have h := congrArg (fun t => t * M) hsum
    simpa [add_mul] using h
  linarith [e0, e1, e2, e3, hM]

/-- A convex combination of four values is at least any common lower
bound of them. -/
theorem convex4_ge (w0 w1 w2 w3 a0 a1 a2 a3 m : ℚ) (h0 : 0 ≤ w0)
    (h1 : 0 ≤ w1) (h2 : 0 ≤ w2) (h3 : 0 ≤ w3)
    (hsum : w0 + w1 + w2 + w3 = 1) (ha0 : m ≤ a0) (ha1 : m ≤ a1)
    (ha2 : m ≤ a2) (ha3 : m ≤ a3) :
    m ≤ w0 * a0 + w1 * a1 + w2 * a2 + w3 * a3 := by
  have e0 := mul_le_mul_of_nonneg_left ha0 h0
  have e1 := mul_le_mul_of_nonneg_left ha1 h1
  have e2 := mul_le_mul_of_nonneg_left ha2 h2
  have e3 := mul_le_mul_of_nonneg_left ha3 h3
  have hm : w0 * m + w1 * m + w2 * m + w3 * m = m := by
    have h := congrArg (fun t => t * m) hsum
    simpa [add_mul] using h
  linarith [e0, e1, e2, e3, hm]

/-- The first of four values bounds `nodalMin` from above. -/
theorem nodalMin_le_0 (a b c d : ℚ) : nodalMin a b c d ≤ a := by
  simp [nodalMin, min_le_iff]

/-- The second of four values bounds `nodalMin` from above. -/
theorem nodalMin_le_1 (a b c d : ℚ) : nodalMin a b c d ≤ b := by
  simp [nodalMin, min_le_iff]

/-- The third of four values bounds `nodalMin` from above. -/
theorem nodalMin_le_2 (a b c d : ℚ) : nodalMin a b c d ≤ c := by
  simp [nodalMin, min_le_iff]

/-- The fourth of four values bounds `nodalMin` from above. -/
theorem nodalMin_le_3 (a b c d : ℚ) : nodalMin a b c d ≤ d := by
  simp [nodalMin, min_le_iff]

/-- The first of four values bounds `nodalMax` from below. -/
theorem le_nodalMax_0 (a b c d : ℚ) : a ≤ nodalMax a b c d := by
  simp [nodalMax, le_max_iff]

/-- The second of four values bounds `nodalMax` from below. -/
theorem le_nodalMax_1 (a b c d : ℚ) : b ≤ nodalMax a b c d := by
  simp [nodalMax, le_max_iff]

/-- The third of four values bounds `nodalMax` from below. -/
theorem le_nodalMax_2 (a b c d : ℚ) : c ≤ nodalMax a b c d := by
  simp [nodalMax, le_max_iff]

/-- The fourth of four values bounds `nodalMax` from below. -/
theorem le_nodalMax_3 (a b c d : ℚ) : d ≤ nodalMax a b c d := by
  simp [nodalMax, le_max_iff]

/-- C8: at any point of the enclosing solid cell (local coordinates in the
unit square), the stress interpolated by the `TransferSolidToFluid`
transition is symmetric, and each of its components lies between the
smallest and the largest of the enclosing cell's four nodal values of that
component — no extrapolation beyond the convex hull of the nodal
values. -/
theorem C8_transfer_stress_bounds (sc : SolidCellStress) (ξ η : ℚ)
    (hξ0 : 0 ≤ ξ) (hξ1 : ξ ≤ 1) (hη0 : 0 ≤ η) (hη1 : η ≤ 1) :
    (interpolateStress sc ξ η).a01 = (interpolateStress sc ξ η).a10 ∧
    (nodalMin sc.n0.xx sc.n1.xx sc.n2.xx sc.n3.xx ≤
        (interpolateStress sc ξ η).a00 ∧
      (interpolateStress sc ξ η).a00 ≤
        nodalMax sc.n0.xx sc.n1.xx sc.n2.xx sc.n3.xx) ∧
    (nodalMin sc.n0.xy sc.n1.xy sc.n2.xy sc.n3.xy ≤
        (interpolateStress sc ξ η).a01 ∧
      (interpolateStress sc ξ η).a01 ≤
        nodalMax sc.n0.xy sc.n1.xy sc.n2.xy sc.n3.xy) ∧
    (nodalMin sc.n0.yy sc.n1.yy sc.n2.yy sc.n3.yy ≤
        (interpolateStress sc ξ η).a11 ∧
      (interpolateStress sc ξ η).a11 ≤
        nodalMax sc.n0.yy sc.n1.yy sc.n2.yy sc.n3.yy) := by
  have hw0 : 0 ≤ (1 - ξ) * (1 - η) :=
    mul_nonneg (by linarith) (by linarith)
  have hw1 : 0 ≤ ξ * (1 - η) := mul_nonneg hξ0 (by linarith)
  have hw2 : 0 ≤ (1 - ξ) * η := mul_nonneg (by linarith) hη0
  have hw3 : 0 ≤ ξ * η := mul_nonneg hξ0 hη0
  have hsum : (1 - ξ) * (1 - η) + ξ * (1 - η) + (1 - ξ) * η + ξ * η = 1 := by
    ring
  refine ⟨rfl, ⟨?_, ?_⟩, ⟨?_, ?_⟩, ⟨?_, ?_⟩⟩
  · exact convex4_ge _ _ _ _ _ _ _ _ _ hw0 hw1 hw2 hw3 hsum
      (nodalMin_le_0 _ _ _ _) (nodalMin_le_1 _ _ _ _) (nodalMin_le_2 _ _ _ _)
      (nodalMin_le_3 _ _ _ _)
  · exact convex4_le _ _ _ _ _ _ _ _ _ hw0 hw1 hw2 hw3 hsum
      (le_nodalMax_0 _ _ _ _) (le_nodalMax_1 _ _ _ _) (le_nodalMax_2 _ _ _ _)
      (le_nodalMax_3 _ _ _ _)
  · exact convex4_ge _ _ _ _ _ _ _ _ _ hw0 hw1 hw2 hw3 hsum
      (nodalMin_le_0 _ _ _ _) (nodalMin_le_1 _ _ _ _) (nodalMin_le_2 _ _ _ _)
      (nodalMin_le_3 _ _ _ _)
  · exact convex4_le _ _ _ _ _ _ _ _ _ hw0 hw1 hw2 hw3 hsum
      (le_nodalMax_0 _ _ _ _) (le_nodalMax_1 _ _ _ _) (le_nodalMax_2 _ _ _ _)
      (le_nodalMax_3 _ _ _ _)
  · exact convex4_ge _ _ _ _ _ _ _ _ _ hw0 hw1 hw2 hw3 hsum
      (nodalMin_le_0 _ _ _ _) (nodalMin_le_1 _ _ _ _) (nodalMin_le_2 _ _ _ _)
      (nodalMin_le_3 _ _ _ _)
  · exact convex4_le _ _ _ _ _ _ _ _ _ hw0 hw1 hw2 hw3 hsum
      (le_nodalMax_0 _ _ _ _) (le_nodalMax_1 _ _ _ _) (le_nodalMax_2 _ _ _ _)
      (le_nodalMax_3 _ _ _ _)

/-- Witness data: concrete nodal stress values of an enclosing solid
cell. -/
def wStress : SolidCellStress :=
  ⟨⟨0, 0, 0⟩, ⟨1, 2, 3⟩, ⟨2, 0, 1⟩, ⟨4, 4, 4⟩⟩

/-- C8 witness: the interpolation-bounds theorem applied at the corner
local coordinates `(1, 0)` of the concrete enclosing cell. -/
theorem C8_transfer_stress_bounds_witness :
    (interpolateStress wStress 1 0).a01 = (interpolateStress wStress 1 0).a10 ∧
    (nodalMin wStress.n0.xx wStress.n1.xx wStress.n2.xx wStress.n3.xx ≤
        (interpolateStress wStress 1 0).a00 ∧
      (interpolateStress wStress 1 0).a00 ≤
        nodalMax wStress.n0.xx wStress.n1.xx wStress.n2.xx wStress.n3.xx) ∧
    (nodalMin wStress.n0.xy wStress.n1.xy wStress.n2.xy wStress.n3.xy ≤
        (interpolateStress wStress 1 0).a01 ∧
      (interpolateStress wStress 1 0).a01 ≤
        nodalMax wStress.n0.xy wStress.n1.xy wStress.n2.xy wStress.n3.xy) ∧
    (nodalMin wStress.n0.yy wStress.n1.yy wStress.n2.yy wStress.n3.yy ≤
        (interpolateStress wStress 1 0).a11 ∧
      (interpolateStress wStress 1 0).a11 ≤
        nodalMax wStress.n0.yy wStress.n1.yy wStress.n2.yy wStress.n3.yy) :=
  C8_transfer_stress_bounds wStress 1 0 (by decide) (by decide) (by decide)
    (by decide)

end OpenIFEM
